import Mathlib

/-!
Verification development for the pulseguard attendance and leave-management
application.  The business-rule layer is shallowly embedded:

* the SQL trigger functions `calculate_total_hours` and `calculate_leave_days`
  (supabase migration file) become pure Lean functions on row records;
* the client handlers `handleCheckIn` / `handleCheckOut` (Attendance.tsx and
  Dashboard.tsx), `handleSubmitLeaveRequest` and `handleApproveReject`
  (LeaveRequests.tsx) become state-passing functions over the stored row for
  one (user_id, date) slot, together with the page-level guards that gate
  every call site of these handlers (disabled attributes and conditional
  rendering in the same files);
* the monthly aggregations of `fetchAttendanceData` (Attendance.tsx) and
  `fetchEmployeeStats` (Dashboard.tsx) become folds over lists of rows.

Dates are modelled as integers (day numbers, as in SQL date subtraction),
timestamps as rationals (seconds, as in EXTRACT(EPOCH FROM ...)), and the
DECIMAL(4,2) column type of attendance.total_hours as rounding to two decimal
places, half away from zero, which is the numeric(p,s) assignment behaviour.
-/

namespace PulseGuard

/-- One row of the `attendance` table (migration lines 24-35), which is also
the shape of the client-side `AttendanceRecord` interface.  `check_in` and
`check_out` are nullable timestamps (seconds), `total_hours` a nullable
DECIMAL(4,2) value, `status` a string as the client handles it. -/
structure AttendanceRow where
  id : Nat
  user_id : Nat
  date : Int
  check_in : Option ℚ
  check_out : Option ℚ
  status : String
  total_hours : Option ℚ
deriving DecidableEq, Repr

/-- One row of the `leave_requests` table (migration lines 38-51):
`approved_by`, `remarks` and `total_days` are nullable. -/
structure LeaveRow where
  id : Nat
  user_id : Nat
  leave_type : String
  start_date : Int
  end_date : Int
  reason : String
  status : String
  approved_by : Option Nat
  remarks : Option String
  total_days : Option Int
deriving DecidableEq, Repr

/-- Rounding of a rational to two decimal places, half away from zero: the
assignment semantics of the DECIMAL(4,2) column `attendance.total_hours`.
(`round` rounds half up, so splitting on the sign gives half away from
zero.) -/
def pgRound2 (q : ℚ) : ℚ :=
  if 0 ≤ q then (round (q * 100) : ℤ) / 100
  else -((round (-q * 100) : ℤ) / 100)

/-- The trigger function `public.calculate_total_hours` (migration lines
186-194), fired BEFORE INSERT OR UPDATE on attendance: when both `check_in`
and `check_out` are non-null it assigns
EXTRACT(EPOCH FROM (check_out - check_in)) / 3600 to `total_hours`, the
assignment landing in a DECIMAL(4,2) column; otherwise the row passes through
unchanged. -/
def calculate_total_hours (r : AttendanceRow) : AttendanceRow :=
  match r.check_in, r.check_out with
  | some ci, some co => { r with total_hours := some (pgRound2 ((co - ci) / 3600)) }
  | _, _ => r

/-- The trigger function `public.calculate_leave_days` (migration lines
202-208), fired BEFORE INSERT OR UPDATE on leave_requests: unconditionally
assigns (end_date - start_date) + 1 to `total_days`. -/
def calculate_leave_days (r : LeaveRow) : LeaveRow :=
  { r with total_days := some (r.end_date - r.start_date + 1) }

/-! ## Attendance store operations

The claims are per (user_id, date); the UNIQUE(user_id, date) constraint
means the relevant state is the single stored row for that slot, modelled as
`Option AttendanceRow`.  Every store write passes through the BEFORE
INSERT OR UPDATE trigger `calculate_total_hours`. -/

/-- The upsert issued by `handleCheckIn` (Attendance.tsx lines 124-133 and
Dashboard.tsx lines 168-177): insert user_id, date, check_in and
status 'present' with `onConflict: 'user_id,date'`.  On a fresh slot this inserts a row whose
other columns take their defaults (null); on conflict it updates the provided
columns of the existing row, keeping `check_out` and `total_hours`.  The
BEFORE trigger runs on the resulting row.  `newId` stands for the
`gen_random_uuid()` default of the id column on insert. -/
def upsertCheckIn (store : Option AttendanceRow) (newId uid : Nat) (d : Int)
    (ts : ℚ) : AttendanceRow :=
  match store with
  | none => calculate_total_hours
      { id := newId, user_id := uid, date := d, check_in := some ts,
        check_out := none, status := "present", total_hours := none }
  | some r => calculate_total_hours
      { r with check_in := some ts, status := "present" }

/-- The update issued by `handleCheckOut` (Attendance.tsx lines 168-173 and
Dashboard.tsx lines 200-205): set `check_out` on the row whose id matches,
the BEFORE trigger then recomputing `total_hours`. -/
def updateCheckOut (store : Option AttendanceRow) (rid : Nat) (ts : ℚ) :
    Option AttendanceRow :=
  match store with
  | none => none
  | some r =>
      if r.id = rid then some (calculate_total_hours { r with check_out := some ts })
      else some r

/-- The client's view of today's record: `todayAttendance` in both pages,
`none` when no row was fetched.  `todayAttendance?.check_in` in the guards
is this projection. -/
def clientCheckIn (today : Option AttendanceRow) : Option ℚ :=
  today.bind (·.check_in)

/-- Projection `todayAttendance?.check_out`. -/
def clientCheckOut (today : Option AttendanceRow) : Option ℚ :=
  today.bind (·.check_out)

/-- Handler `handleCheckIn` of Attendance.tsx (lines 107-151): rejects with an
"Already Checked In" toast, before any store call, when
`todayAttendance?.check_in` is set (lines 115-122); otherwise issues the
upsert.  Returns whether a store write happened, and the new store state. -/
def attendanceHandleCheckIn (today store : Option AttendanceRow)
    (newId uid : Nat) (d : Int) (ts : ℚ) : Bool × Option AttendanceRow :=
  if (clientCheckIn today).isSome then (false, store)
  else (true, some (upsertCheckIn store newId uid d ts))

/-- Handler `handleCheckIn` of Dashboard.tsx (lines 161-195): the handler itself is
unguarded and always issues the upsert. -/
def dashboardHandleCheckIn (store : Option AttendanceRow) (newId uid : Nat)
    (d : Int) (ts : ℚ) : Bool × Option AttendanceRow :=
  (true, some (upsertCheckIn store newId uid d ts))

/-- The Dashboard page only renders its Check In button when
`!todayAttendance?.check_in` (Dashboard.tsx line 344), so the page-level
check-in attempt is the guarded composition of that render condition with
the unguarded handler. -/
def dashboardCheckInPage (today store : Option AttendanceRow)
    (newId uid : Nat) (d : Int) (ts : ℚ) : Bool × Option AttendanceRow :=
  if (clientCheckIn today).isSome then (false, store)
  else dashboardHandleCheckIn store newId uid d ts

/-- Handler `handleCheckOut` of Attendance.tsx (lines 153-191): returns silently when
`todayAttendance` is null (line 154), rejects with an "Already Checked Out"
toast when `todayAttendance.check_out` is set (lines 159-166), otherwise
updates the row with matching id. -/
def attendanceHandleCheckOut (today store : Option AttendanceRow) (ts : ℚ) :
    Bool × Option AttendanceRow :=
  match today with
  | none => (false, store)
  | some t =>
      if t.check_out.isSome then (false, store)
      else (true, updateCheckOut store t.id ts)

/-- The Attendance page's Check Out button is disabled when
`!todayAttendance?.check_in || !!todayAttendance?.check_out`
(Attendance.tsx line 226); the page-level check-out attempt composes this
guard with the handler. -/
def attendanceCheckOutPage (today store : Option AttendanceRow) (ts : ℚ) :
    Bool × Option AttendanceRow :=
  if !(clientCheckIn today).isSome || (clientCheckOut today).isSome then (false, store)
  else attendanceHandleCheckOut today store ts

/-- Handler `handleCheckOut` of Dashboard.tsx (lines 197-226): returns silently when
`todayAttendance` is null, otherwise updates the matching row with no
further guard. -/
def dashboardHandleCheckOut (today store : Option AttendanceRow) (ts : ℚ) :
    Bool × Option AttendanceRow :=
  match today with
  | none => (false, store)
  | some t => (true, updateCheckOut store t.id ts)

/-- The Dashboard page renders its Check Out button only when
`todayAttendance?.check_in` is set and `todayAttendance?.check_out` is not
(Dashboard.tsx lines 344-353): page-level check-out attempt. -/
def dashboardCheckOutPage (today store : Option AttendanceRow) (ts : ℚ) :
    Bool × Option AttendanceRow :=
  if (clientCheckIn today).isSome && !(clientCheckOut today).isSome then
    dashboardHandleCheckOut today store ts
  else (false, store)

/-! ## Leave-request operations -/

/-- The decisions `handleApproveReject` accepts: its TypeScript signature is
`status: 'approved' | 'rejected'` (LeaveRequests.tsx line 194). -/
inductive Decision where
  | approved
  | rejected
deriving DecidableEq, Repr

/-- The status string the decision writes. -/
def Decision.toStatus : Decision → String
  | .approved => "approved"
  | .rejected => "rejected"

/-- The form state `newLeaveRequest` of LeaveRequests.tsx: `leaveType` and
`reason` are strings (empty = unfilled); the two date inputs hold either no
value or a date, modelled as `Option Int`. -/
structure NewLeaveRequest where
  leaveType : String
  startDate : Option Int
  endDate : Option Int
  reason : String
deriving DecidableEq, Repr

/-- The insert issued by `handleSubmitLeaveRequest` (LeaveRequests.tsx lines
155-165): user_id, leave_type, start_date, end_date, reason and status
'pending' are provided; approved_by, remarks and total_days take their null
defaults, after which the BEFORE INSERT trigger `calculate_leave_days` sets
total_days.  `newId` stands for the `gen_random_uuid()` id default. -/
def insertLeaveRequest (newId uid : Nat) (lt : String) (sd ed : Int)
    (reason : String) : LeaveRow :=
  calculate_leave_days
    { id := newId, user_id := uid, leave_type := lt, start_date := sd,
      end_date := ed, reason := reason, status := "pending",
      approved_by := none, remarks := none, total_days := none }

/-- Handler `handleSubmitLeaveRequest` (LeaveRequests.tsx lines 142-192): rejects
with a validation toast, before any store call, when `leaveType`,
`startDate`, `endDate` or `reason` is empty (lines 146-154); otherwise
issues the insert.  Returns whether a store write happened and the new list
of stored leave requests. -/
def handleSubmitLeaveRequest (f : NewLeaveRequest) (newId uid : Nat)
    (store : List LeaveRow) : Bool × List LeaveRow :=
  match f.startDate, f.endDate with
  | some sd, some ed =>
      if f.leaveType = "" ∨ f.reason = "" then (false, store)
      else (true, store ++ [insertLeaveRequest newId uid f.leaveType sd ed f.reason])
  | _, _ => (false, store)

/-- Handler `handleApproveReject` (LeaveRequests.tsx lines 194-223): updates the
request with status, `approved_by = profile.user_id` and
`remarks: remarks || null`; the BEFORE UPDATE trigger `calculate_leave_days`
then recomputes total_days.  No check of the current status is made here. -/
def handleApproveReject (req : LeaveRow) (approver : Nat) (d : Decision)
    (remarks : Option String) : LeaveRow :=
  calculate_leave_days
    { req with status := d.toStatus, approved_by := some approver,
               remarks := remarks }

/-- The Approve / Reject buttons are rendered only when
`profile?.role !== 'employee' && request.status === 'pending'`
(LeaveRequests.tsx line 464), and they invoke `handleApproveReject` without
remarks (lines 471 and 478). -/
def leaveActionVisible (role : String) (req : LeaveRow) : Bool :=
  role != "employee" && req.status == "pending"

/-- The page-level status transition: the render guard composed with
`handleApproveReject`; outside the guard no call can be made and the stored
request is untouched. -/
def leavePageApproveReject (role : String) (req : LeaveRow) (approver : Nat)
    (d : Decision) : LeaveRow :=
  if leaveActionVisible role req then handleApproveReject req approver d none
  else req

/-! ## Monthly aggregation (Attendance.tsx lines 79-88, Dashboard.tsx
lines 140-159) -/

/-- Count `records.filter(r => r.status === 'present').length`. -/
def presentDays (records : List AttendanceRow) : Nat :=
  (records.filter (fun r => r.status = "present")).length

/-- Count `records.filter(r => r.status === 'late').length`. -/
def lateDays (records : List AttendanceRow) : Nat :=
  (records.filter (fun r => r.status = "late")).length

/-- Count `records.filter(r => r.status === 'absent').length`. -/
def absentDays (records : List AttendanceRow) : Nat :=
  (records.filter (fun r => r.status = "absent")).length

/-- Count `records.length`, the `totalDays` stat. -/
def totalDaysStat (records : List AttendanceRow) : Nat :=
  records.length

/-- Reduction `records.reduce((sum, r) => sum + (r.total_hours || 0), 0)`
(Attendance.tsx line 86).  A null `total_hours` contributes 0; a stored 0
is falsy in JavaScript but likewise contributes 0, so `Option.getD 0` is
exact. -/
def totalHoursStat (records : List AttendanceRow) : ℚ :=
  records.foldl (fun s r => s + r.total_hours.getD 0) 0

/-- Stats fetch `fetchEmployeeStats` (Dashboard.tsx lines 140-159) queries the month's
rows with `.not('total_hours', 'is', null)` and reduces the result with the
same `sum + (record.total_hours || 0)` accumulator: given the full month
list, the fetched rows are those whose total_hours is non-null. -/
def dashboardTotalHours (records : List AttendanceRow) : ℚ :=
  (records.filter (fun r => r.total_hours.isSome)).foldl
    (fun s r => s + r.total_hours.getD 0) 0

/-! ## Helper lemmas -/

/-- Every row inserted by `handleSubmitLeaveRequest` is pending, carries no
remarks, and has the trigger-computed inclusive day count: the hypotheses of
the approval frame theorem hold for every created request. -/
theorem insertLeaveRequest_pending (newId uid : Nat) (lt : String) (sd ed : Int)
    (reason : String) :
    (insertLeaveRequest newId uid lt sd ed reason).status = "pending" ∧
    (insertLeaveRequest newId uid lt sd ed reason).remarks = none ∧
    (insertLeaveRequest newId uid lt sd ed reason).total_days =
      some (ed - sd + 1) := by
  refine ⟨rfl, rfl, rfl⟩

/-- Accumulating `total_hours.getD 0` over a list adds the sum of the
non-null values. -/
theorem foldl_totalHours (l : List AttendanceRow) (a : ℚ) :
    l.foldl (fun s r => s + r.total_hours.getD 0) a =
      a + (l.filterMap (fun r => r.total_hours)).sum := by
  induction l generalizing a with
  | nil => simp
  | cons r l ih =>
    cases hr : r.total_hours with
    | none => simp [List.foldl_cons, ih, hr]
    | some q => simp [List.foldl_cons, ih, hr, add_assoc]

/-- Dropping the rows whose `total_hours` is null does not change the
collected non-null values. -/
theorem filter_isSome_filterMap (l : List AttendanceRow) :
    ((l.filter (fun r => r.total_hours.isSome)).filterMap
        (fun r => r.total_hours)) =
      l.filterMap (fun r => r.total_hours) := by
  induction l with
  | nil => rfl
  | cons r l ih =>
    cases hr : r.total_hours with
    | none => simp [List.filter_cons, hr, ih]
    | some q => simp [List.filter_cons, hr, ih]

/-- Rounding `pgRound2` returns a value with at most two decimal places. -/
theorem pgRound2_two_decimals (q : ℚ) : (pgRound2 q * 100).den = 1 := by
  unfold pgRound2
  split
  · rw [div_mul_cancel₀ _ (by norm_num : (100 : ℚ) ≠ 0)]
    exact Rat.den_intCast _
  · rw [neg_mul, div_mul_cancel₀ _ (by norm_num : (100 : ℚ) ≠ 0), ← Int.cast_neg]
    exact Rat.den_intCast _

/-- Rounding `pgRound2` moves a value by at most half of the last stored decimal. -/
theorem pgRound2_close (q : ℚ) : |pgRound2 q - q| ≤ 1 / 200 := by
  have key : ∀ x : ℚ, |((round x : ℤ) : ℚ) / 100 - x / 100| ≤ 1 / 200 := by
    intro x
    rw [div_sub_div_same, abs_div, abs_of_pos (by norm_num : (0:ℚ) < 100)]
    have h := abs_sub_round x
    rw [abs_sub_comm] at h
    linarith
  unfold pgRound2
  split
  · have h := key (q * 100)
    rw [mul_div_cancel_right₀ q (by norm_num : (100 : ℚ) ≠ 0)] at h
    exact h
  · have h := key (-q * 100)
    rw [mul_div_cancel_right₀ (-q) (by norm_num : (100 : ℚ) ≠ 0)] at h
    calc |-(((round (-q * 100) : ℤ) : ℚ) / 100) - q|
        = |((round (-q * 100) : ℤ) : ℚ) / 100 - -q| := by
          rw [← abs_neg]; ring_nf
      _ ≤ 1 / 200 := h

/-! ## Claim theorems -/

/-- C1: for every leave request whose start_date is on or before its
end_date, the trigger-stored total_days equals (end_date − start_date) + 1,
counting both endpoints, and this value is at least 1. -/
theorem C1_total_days_inclusive (r : LeaveRow)
    (h : r.start_date ≤ r.end_date) :
    (calculate_leave_days r).total_days =
      some (r.end_date - r.start_date + 1) ∧
    ∀ n : Int, (calculate_leave_days r).total_days = some n → 1 ≤ n := by
  refine ⟨rfl, ?_⟩
  intro n hn
  simp only [calculate_leave_days, Option.some.injEq] at hn
  omega

/-- Witness for C1 at the spec scenario 2025-02-01 .. 2025-02-03 (days 32
and 34 of 2025): total_days = 3 ≥ 1. -/
theorem C1_total_days_inclusive_witness :
    (calculate_leave_days
      { id := 1, user_id := 1, leave_type := "casual", start_date := 32,
        end_date := 34, reason := "trip", status := "pending",
        approved_by := none, remarks := none,
        total_days := none }).total_days = some (34 - 32 + 1) ∧
    ∀ n : Int,
      (calculate_leave_days
        { id := 1, user_id := 1, leave_type := "casual", start_date := 32,
          end_date := 34, reason := "trip", status := "pending",
          approved_by := none, remarks := none,
          total_days := none }).total_days = some n → 1 ≤ n :=
  C1_total_days_inclusive _ (by decide)

/-- C9: the hours trigger leaves a row with a null check_in or check_out
completely unchanged, and the row stored by a first check-in (fresh slot)
has null check_out and null total_hours. -/
theorem C9_trigger_null_frame :
    (∀ r : AttendanceRow, r.check_in = none ∨ r.check_out = none →
        calculate_total_hours r = r) ∧
    (∀ newId uid : Nat, ∀ d : Int, ∀ ts : ℚ,
        (upsertCheckIn none newId uid d ts).check_out = none ∧
        (upsertCheckIn none newId uid d ts).total_hours = none) := by
  constructor
  · intro r h
    unfold calculate_total_hours
    rcases h with h | h <;> rw [h] <;> cases r.check_in <;> cases r.check_out <;> rfl
  · intro newId uid d ts
    exact ⟨rfl, rfl⟩

/-- Witness for C9: a concrete checked-in row with no check_out passes the
trigger untouched, and a first check-in stores null total_hours. -/
theorem C9_trigger_null_frame_witness :
    calculate_total_hours
      { id := 1, user_id := 1, date := 0, check_in := some 32700,
        check_out := none, status := "present", total_hours := none } =
      { id := 1, user_id := 1, date := 0, check_in := some 32700,
        check_out := none, status := "present", total_hours := none } ∧
    (upsertCheckIn none 1 1 0 32700).total_hours = none :=
  ⟨C9_trigger_null_frame.1 _ (Or.inr rfl),
   (C9_trigger_null_frame.2 1 1 0 32700).2⟩

/-- C8: when every record of the month carries one of the three statuses,
the per-status counts of `fetchAttendanceData` partition the record count. -/
theorem C8_status_counts_partition (records : List AttendanceRow)
    (h : ∀ r ∈ records,
        r.status = "present" ∨ r.status = "late" ∨ r.status = "absent") :
    presentDays records + lateDays records + absentDays records =
      totalDaysStat records := by
  unfold presentDays lateDays absentDays totalDaysStat
  revert h
  induction records with
  | nil => intro _; rfl
  | cons r l ih =>
    intro h
    have hr := h r (List.mem_cons_self r l)
    have ih' := ih fun x hx => h x (List.mem_cons_of_mem r hx)
    rcases hr with h1 | h1 | h1 <;> simp [List.filter_cons, h1] <;> omega

/-- Witness for C8 on a two-record month: 1 present + 1 late + 0 absent =
2 records. -/
theorem C8_status_counts_partition_witness :
    presentDays
        [{ id := 1, user_id := 1, date := 0, check_in := some 32700,
           check_out := some 63000, status := "present",
           total_hours := some (421 / 50) },
         { id := 2, user_id := 1, date := 1, check_in := some 34500,
           check_out := none, status := "late", total_hours := none }] +
      lateDays
        [{ id := 1, user_id := 1, date := 0, check_in := some 32700,
           check_out := some 63000, status := "present",
           total_hours := some (421 / 50) },
         { id := 2, user_id := 1, date := 1, check_in := some 34500,
           check_out := none, status := "late", total_hours := none }] +
      absentDays
        [{ id := 1, user_id := 1, date := 0, check_in := some 32700,
           check_out := some 63000, status := "present",
           total_hours := some (421 / 50) },
         { id := 2, user_id := 1, date := 1, check_in := some 34500,
           check_out := none, status := "late", total_hours := none }] =
      totalDaysStat
        [{ id := 1, user_id := 1, date := 0, check_in := some 32700,
           check_out := some 63000, status := "present",
           total_hours := some (421 / 50) },
         { id := 2, user_id := 1, date := 1, check_in := some 34500,
           check_out := none, status := "late", total_hours := none }] :=
  C8_status_counts_partition _ (by
    intro r hr
    simp only [List.mem_cons, List.not_mem_nil, or_false] at hr
    rcases hr with rfl | rfl
    · left; rfl
    · right; left; rfl)

/-- C10: in the monthly total-hours reduction a null total_hours contributes
exactly 0 — the sum equals the sum over only the non-null values — and the
Dashboard variant, which queries only rows with non-null total_hours,
computes the same number. -/
theorem C10_null_hours_contribute_zero (records : List AttendanceRow) :
    totalHoursStat records =
      (records.filterMap (fun r => r.total_hours)).sum ∧
    dashboardTotalHours records = totalHoursStat records := by
  constructor
  · unfold totalHoursStat
    rw [foldl_totalHours]
    simp
  · unfold dashboardTotalHours totalHoursStat
    rw [foldl_totalHours, foldl_totalHours, filter_isSome_filterMap]

/-- The spec's attendance scenario: check_in at 09:05 (32700 seconds into
the day) and check_out at 17:30 (63000 seconds) of the same day. -/
def scenarioAttendanceInput : AttendanceRow :=
  { id := 1, user_id := 1, date := 0, check_in := some 32700,
    check_out := some 63000, status := "present", total_hours := none }

/-- Evaluation of the hours trigger on the spec scenario: the DECIMAL(4,2)
column stores 8.42. -/
theorem scenario_total_hours_eval :
    (calculate_total_hours scenarioAttendanceInput).total_hours =
      some (421 / 50) := by
  show some (pgRound2 ((63000 - 32700) / 3600)) = some (421 / 50)
  norm_num [pgRound2, round_eq]

/-- Counterexample to C2: on the spec's own scenario the stored total_hours
is 8.42 (the DECIMAL(4,2) column rounds to two decimal places), which is
neither the claimed 8.4167 nor the exact quotient
(check_out − check_in)/3600 = 101/12; the exact quotient does not even equal
8.4167, so the claim fails however it is read. -/
theorem C2_counterexample :
    (calculate_total_hours scenarioAttendanceInput).total_hours =
      some (421 / 50) ∧
    (421 : ℚ) / 50 ≠ 84167 / 10000 ∧
    (421 : ℚ) / 50 ≠ ((63000 : ℚ) - 32700) / 3600 ∧
    ((63000 : ℚ) - 32700) / 3600 ≠ 84167 / 10000 :=
  ⟨scenario_total_hours_eval, by norm_num, by norm_num, by norm_num⟩

/-- C2 as amended: for every record with both timestamps the trigger stores
(check_out − check_in)/3600 rounded to the DECIMAL(4,2) column — a value
with at most two decimal places within 1/200 of the exact quotient — and
the 09:05/17:30 scenario stores 8.42. -/
theorem C2_hours_rounded :
    (∀ (r : AttendanceRow) (ci co : ℚ), r.check_in = some ci →
        r.check_out = some co →
        ∃ s : ℚ, (calculate_total_hours r).total_hours = some s ∧
          s = pgRound2 ((co - ci) / 3600) ∧ (s * 100).den = 1 ∧
          |s - (co - ci) / 3600| ≤ 1 / 200) ∧
    (calculate_total_hours scenarioAttendanceInput).total_hours =
      some (421 / 50) := by
  constructor
  · intro r ci co hci hco
    refine ⟨pgRound2 ((co - ci) / 3600), ?_, rfl,
      pgRound2_two_decimals _, pgRound2_close _⟩
    unfold calculate_total_hours
    rw [hci, hco]
  · exact scenario_total_hours_eval

/-- Witness for C2 as amended, at the 09:05/17:30 scenario record. -/
theorem C2_hours_rounded_witness :
    ∃ s : ℚ, (calculate_total_hours scenarioAttendanceInput).total_hours =
        some s ∧
      s = pgRound2 (((63000 : ℚ) - 32700) / 3600) ∧ (s * 100).den = 1 ∧
      |s - ((63000 : ℚ) - 32700) / 3600| ≤ 1 / 200 :=
  C2_hours_rounded.1 scenarioAttendanceInput 32700 63000 rfl rfl

/-- A leave-request form submission whose start date (day 34) is after its
end date (day 32), with every required field filled in. -/
def backwardsLeaveForm : NewLeaveRequest :=
  { leaveType := "casual", startDate := some 34, endDate := some 32,
    reason := "family trip" }

/-- Counterexample to C5: `handleSubmitLeaveRequest` checks only that the
required fields are non-empty; a submission whose start_date is after its
end_date reaches the store — the insert is issued, the stored list changes,
and the trigger records total_days = −1. -/
theorem C5_counterexample :
    (32 : Int) < 34 ∧
    (handleSubmitLeaveRequest backwardsLeaveForm 7 1 []).1 = true ∧
    (handleSubmitLeaveRequest backwardsLeaveForm 7 1 []).2 =
      [insertLeaveRequest 7 1 "casual" 34 32 "family trip"] ∧
    (insertLeaveRequest 7 1 "casual" 34 32 "family trip").total_days =
      some (-1) := by
  refine ⟨by decide, rfl, rfl, by decide⟩

/-- C5 as amended: creation rejects, before any store call, exactly the
submissions with a missing required field; a fully-filled submission whose
start_date is after its end_date is not rejected — it is inserted and stored
with total_days = (end_date − start_date) + 1 ≤ 0. -/
theorem C5_no_date_order_validation (f : NewLeaveRequest) (newId uid : Nat)
    (store : List LeaveRow) (sd ed : Int)
    (hsd : f.startDate = some sd) (hed : f.endDate = some ed)
    (hlt : f.leaveType ≠ "") (hre : f.reason ≠ "") (hord : ed < sd) :
    (handleSubmitLeaveRequest f newId uid store).1 = true ∧
    (handleSubmitLeaveRequest f newId uid store).2 =
      store ++ [insertLeaveRequest newId uid f.leaveType sd ed f.reason] ∧
    (insertLeaveRequest newId uid f.leaveType sd ed f.reason).total_days =
      some (ed - sd + 1) ∧
    ed - sd + 1 ≤ 0 := by
  unfold handleSubmitLeaveRequest
  rw [hsd, hed]
  dsimp only
  rw [if_neg (by rintro (h | h); exact hlt h; exact hre h)]
  exact ⟨rfl, rfl, rfl, by omega⟩

/-- Witness for C5 as amended, at the concrete backwards submission. -/
theorem C5_no_date_order_validation_witness :
    (handleSubmitLeaveRequest backwardsLeaveForm 7 1 []).1 = true ∧
    (handleSubmitLeaveRequest backwardsLeaveForm 7 1 []).2 =
      [] ++ [insertLeaveRequest 7 1 "casual" 34 32 "family trip"] ∧
    (insertLeaveRequest 7 1 "casual" 34 32 "family trip").total_days =
      some ((32 : Int) - 34 + 1) ∧
    (32 : Int) - 34 + 1 ≤ 0 :=
  C5_no_date_order_validation backwardsLeaveForm 7 1 [] 34 32 rfl rfl
    (by decide) (by decide) (by decide)

/-- C6: the only status-transition operation the pages offer — the
Approve/Reject buttons, rendered solely for HR/admin on pending requests,
composed with `handleApproveReject` — changes a status only from pending and
only to approved or rejected, and touches an approved or rejected request in
no field at all (in particular neither its status nor anything besides
remarks). -/
theorem C6_status_machine_terminal (role : String) (req : LeaveRow)
    (approver : Nat) (d : Decision) :
    ((leavePageApproveReject role req approver d).status ≠ req.status →
       req.status = "pending" ∧
       ((leavePageApproveReject role req approver d).status = "approved" ∨
        (leavePageApproveReject role req approver d).status = "rejected")) ∧
    ((req.status = "approved" ∨ req.status = "rejected") →
       leavePageApproveReject role req approver d = req) := by
  unfold leavePageApproveReject
  by_cases hg : leaveActionVisible role req = true
  · have hp : req.status = "pending" := by
      have h := hg
      simp only [leaveActionVisible, Bool.and_eq_true, bne_iff_ne,
        beq_iff_eq] at h
      exact h.2
    rw [if_pos hg]
    constructor
    · intro _
      refine ⟨hp, ?_⟩
      cases d
      · left; rfl
      · right; rfl
    · intro hc
      rcases hc with hc | hc <;> rw [hp] at hc <;> exact absurd hc (by decide)
  · rw [if_neg hg]
    exact ⟨fun h => absurd rfl h, fun _ => rfl⟩

/-- A leave request that has already been approved. -/
def approvedLeaveRow : LeaveRow :=
  { id := 3, user_id := 5, leave_type := "earned", start_date := 60,
    end_date := 62, reason := "vacation", status := "approved",
    approved_by := some 9, remarks := none, total_days := some 3 }

/-- Witness for C6: a rejection attempt against an already approved request
leaves it untouched. -/
theorem C6_status_machine_terminal_witness :
    leavePageApproveReject "hr" approvedLeaveRow 9 .rejected =
      approvedLeaveRow :=
  (C6_status_machine_terminal "hr" approvedLeaveRow 9 .rejected).2
    (Or.inl rfl)

/-- C7: approving a pending request (as every request created through
`handleSubmitLeaveRequest` is: pending, no remarks, trigger-computed
total_days) sets status to 'approved' and approved_by to the approver, and
leaves leave_type, start_date, end_date, reason, remarks, total_days and
user_id unchanged. -/
theorem C7_approve_frame (role : String) (req : LeaveRow) (approver : Nat)
    (hrole : role ≠ "employee") (hst : req.status = "pending")
    (hrem : req.remarks = none)
    (htd : req.total_days = some (req.end_date - req.start_date + 1)) :
    (leavePageApproveReject role req approver .approved).status =
      "approved" ∧
    (leavePageApproveReject role req approver .approved).approved_by =
      some approver ∧
    (leavePageApproveReject role req approver .approved).leave_type =
      req.leave_type ∧
    (leavePageApproveReject role req approver .approved).start_date =
      req.start_date ∧
    (leavePageApproveReject role req approver .approved).end_date =
      req.end_date ∧
    (leavePageApproveReject role req approver .approved).reason =
      req.reason ∧
    (leavePageApproveReject role req approver .approved).remarks =
      req.remarks ∧
    (leavePageApproveReject role req approver .approved).total_days =
      req.total_days ∧
    (leavePageApproveReject role req approver .approved).user_id =
      req.user_id := by
  have hg : leaveActionVisible role req = true := by
    simp only [leaveActionVisible, Bool.and_eq_true, bne_iff_ne, beq_iff_eq]
    exact ⟨hrole, hst⟩
  unfold leavePageApproveReject
  rw [if_pos hg]
  exact ⟨rfl, rfl, rfl, rfl, rfl, rfl, hrem.symm, htd.symm, rfl⟩

/-- A pending leave request as created by the submit handler. -/
def pendingLeaveRow : LeaveRow :=
  { id := 2, user_id := 5, leave_type := "sick", start_date := 40,
    end_date := 41, reason := "flu", status := "pending",
    approved_by := none, remarks := none, total_days := some 2 }

/-- Witness for C7: approving a concrete pending request. -/
theorem C7_approve_frame_witness :
    (leavePageApproveReject "hr" pendingLeaveRow 9 .approved).status =
      "approved" ∧
    (leavePageApproveReject "hr" pendingLeaveRow 9 .approved).approved_by =
      some 9 ∧
    (leavePageApproveReject "hr" pendingLeaveRow 9 .approved).leave_type =
      pendingLeaveRow.leave_type ∧
    (leavePageApproveReject "hr" pendingLeaveRow 9 .approved).start_date =
      pendingLeaveRow.start_date ∧
    (leavePageApproveReject "hr" pendingLeaveRow 9 .approved).end_date =
      pendingLeaveRow.end_date ∧
    (leavePageApproveReject "hr" pendingLeaveRow 9 .approved).reason =
      pendingLeaveRow.reason ∧
    (leavePageApproveReject "hr" pendingLeaveRow 9 .approved).remarks =
      pendingLeaveRow.remarks ∧
    (leavePageApproveReject "hr" pendingLeaveRow 9 .approved).total_days =
      pendingLeaveRow.total_days ∧
    (leavePageApproveReject "hr" pendingLeaveRow 9 .approved).user_id =
      pendingLeaveRow.user_id :=
  C7_approve_frame "hr" pendingLeaveRow 9 (by decide) rfl rfl (by decide)

/-- C3: when the client's view of today's record reflects the store and the
stored record for the (user, date) slot has a non-null check_in, a second
check-in attempt is rejected before any store call on the Attendance page
and is not offered at all on the Dashboard (its button is not rendered) —
either way the stored record is unchanged in every field. -/
theorem C3_second_checkin_rejected (today store : Option AttendanceRow)
    (r : AttendanceRow) (newId uid : Nat) (d : Int) (ts : ℚ)
    (hsync : today = store) (hstore : store = some r)
    (hci : r.check_in ≠ none) :
    attendanceHandleCheckIn today store newId uid d ts = (false, store) ∧
    dashboardCheckInPage today store newId uid d ts = (false, store) := by
  subst hsync
  subst hstore
  have h : (clientCheckIn (some r)).isSome = true :=
    Option.ne_none_iff_isSome.mp hci
  unfold attendanceHandleCheckIn dashboardCheckInPage
  rw [if_pos h, if_pos h]
  exact ⟨rfl, rfl⟩

/-- A stored attendance record holding a 09:05 check-in. -/
def checkedInRow : AttendanceRow :=
  { id := 4, user_id := 1, date := 0, check_in := some 32700,
    check_out := none, status := "present", total_hours := none }

/-- Witness for C3: a second 10:00 check-in against the stored 09:05
record is rejected by both pages with the store untouched. -/
theorem C3_second_checkin_rejected_witness :
    attendanceHandleCheckIn (some checkedInRow) (some checkedInRow) 5 1 0
        36000 = (false, some checkedInRow) ∧
    dashboardCheckInPage (some checkedInRow) (some checkedInRow) 5 1 0
        36000 = (false, some checkedInRow) :=
  C3_second_checkin_rejected (some checkedInRow) (some checkedInRow)
    checkedInRow 5 1 0 36000 rfl rfl (by simp [checkedInRow])

/-- The record stored by a successful check-out at timestamp `ts` of a
record `r` checked in at `ci`: check_out is set and the trigger stores the
rounded fractional hour count. -/
def checkedOutResult (r : AttendanceRow) (ci ts : ℚ) : AttendanceRow :=
  { r with
    check_out := some ts,
    total_hours := some (pgRound2 ((ts - ci) / 3600)) }

/-- C4: with the client's view of today's record reflecting the store, a
check-out attempt on either page (button guards composed with the handlers)
fails with the store unchanged when no record exists, when the record's
check_in is null, or when check_out is already set; otherwise it sets
check_out to the given timestamp and recomputes total_hours as
(check_out − check_in)/3600 stored in the DECIMAL(4,2) column, and a
repeated attempt at any later timestamp fails and leaves the updated record
unchanged. -/
theorem C4_checkout_guarded (today store : Option AttendanceRow)
    (ts ts' : ℚ) (hsync : today = store) :
    (store = none →
       attendanceCheckOutPage today store ts = (false, store) ∧
       dashboardCheckOutPage today store ts = (false, store)) ∧
    (∀ r : AttendanceRow, store = some r → r.check_in = none →
       attendanceCheckOutPage today store ts = (false, store) ∧
       dashboardCheckOutPage today store ts = (false, store)) ∧
    (∀ r : AttendanceRow, ∀ co : ℚ, store = some r → r.check_out = some co →
       attendanceCheckOutPage today store ts = (false, store) ∧
       dashboardCheckOutPage today store ts = (false, store)) ∧
    (∀ r : AttendanceRow, ∀ ci : ℚ, store = some r → r.check_in = some ci →
       r.check_out = none →
       attendanceCheckOutPage today store ts =
         (true, some (checkedOutResult r ci ts)) ∧
       dashboardCheckOutPage today store ts =
         (true, some (checkedOutResult r ci ts)) ∧
       attendanceCheckOutPage (some (checkedOutResult r ci ts))
           (some (checkedOutResult r ci ts)) ts' =
         (false, some (checkedOutResult r ci ts)) ∧
       dashboardCheckOutPage (some (checkedOutResult r ci ts))
           (some (checkedOutResult r ci ts)) ts' =
         (false, some (checkedOutResult r ci ts))) := by
  subst hsync
  refine ⟨?_, ?_, ?_, ?_⟩
  · rintro rfl
    exact ⟨rfl, rfl⟩
  · rintro r rfl hci
    constructor
    · unfold attendanceCheckOutPage
      rw [if_pos]
      simp [clientCheckIn, hci]
    · unfold dashboardCheckOutPage
      rw [if_neg]
      simp [clientCheckIn, hci]
  · rintro r co rfl hco
    constructor
    · unfold attendanceCheckOutPage
      rw [if_pos]
      simp [clientCheckOut, hco]
    · unfold dashboardCheckOutPage
      rw [if_neg]
      simp [clientCheckOut, hco]
  · rintro r ci rfl hci hco
    have hup : updateCheckOut (some r) r.id ts =
        some (checkedOutResult r ci ts) := by
      simp [updateCheckOut, calculate_total_hours, checkedOutResult, hci]
    refine ⟨?_, ?_, ?_, ?_⟩
    · simp [attendanceCheckOutPage, attendanceHandleCheckOut, clientCheckIn,
        clientCheckOut, hci, hco, hup]
    · simp [dashboardCheckOutPage, dashboardHandleCheckOut, clientCheckIn,
        clientCheckOut, hci, hco, hup]
    · simp [attendanceCheckOutPage, checkedOutResult, clientCheckIn,
        clientCheckOut, hci]
    · simp [dashboardCheckOutPage, checkedOutResult, clientCheckIn,
        clientCheckOut, hci]

/-- Witness for C4: checking out at 17:30 against the stored 09:05 record
succeeds and stores the rounded hour count; a repeated 18:00 attempt is
rejected with the record unchanged. -/
theorem C4_checkout_guarded_witness :
    attendanceCheckOutPage (some checkedInRow) (some checkedInRow) 63000 =
      (true, some (checkedOutResult checkedInRow 32700 63000)) ∧
    dashboardCheckOutPage (some checkedInRow) (some checkedInRow) 63000 =
      (true, some (checkedOutResult checkedInRow 32700 63000)) ∧
    attendanceCheckOutPage (some (checkedOutResult checkedInRow 32700 63000))
        (some (checkedOutResult checkedInRow 32700 63000)) 64800 =
      (false, some (checkedOutResult checkedInRow 32700 63000)) ∧
    dashboardCheckOutPage (some (checkedOutResult checkedInRow 32700 63000))
        (some (checkedOutResult checkedInRow 32700 63000)) 64800 =
      (false, some (checkedOutResult checkedInRow 32700 63000)) :=
  (C4_checkout_guarded (some checkedInRow) (some checkedInRow) 63000 64800
      rfl).2.2.2 checkedInRow 32700 rfl rfl rfl

end PulseGuard
